import Mathlib

/-!
# Verification of the Ichimoku Cloud engine

Shallow embedding of `src/backend/app/services/ichimoku.py`
(`apply_ichimoku_cloud`) and of the cloud-fill bucketing loop in
`src/frontend/app/charts.py` (`render_chart`), with theorems checking the
specification's claims against them.

Modelling conventions:
* A pandas column is a total function `Nat → Option ℚ`; `none` stands for a
  missing value (pandas `NaN`), so "undefined" is a distinct state rather
  than a float sentinel.  Prices are embedded as rationals.
* The `time` value of a bar (a `YYYY-MM-DD` string in the source) is
  embedded as a `Nat` day number; the aligner's `last_date + timedelta(days=i+1)`
  becomes `lastTime + i + 1`.  Calendar-string formatting is irrelevant to
  every claim and is abstracted away.
* Python exceptions are modelled with `Except`: the embedding returns
  `Except PyError _`, and the error value records which exception the
  source raises (pandas positional indexing on an empty frame raises
  `IndexError`; the specification's `InvalidInputError` is carried as a
  separate constructor so the two can be distinguished — the source never
  defines or raises such a type).
-/

namespace Ichimoku

/-- One OHLCV bar, the row shape consumed by `apply_ichimoku_cloud`
(`[time, open, high, low, close, volume]`). -/
structure Bar where
  time : Nat
  openp : ℚ
  high : ℚ
  low : ℚ
  close : ℚ
  volume : ℚ
deriving Repr, DecidableEq

/-- Which Python exception a call raises.  `indexError` is what pandas
raises for positional access (`df.index[-1]`, `.iloc[-1]`) on an empty
frame; `invalidInputError` is the typed error named by the specification,
present here only so statements can distinguish the two — no code path of
the embedding produces it. -/
inductive PyError where
  | indexError
  | invalidInputError
deriving Repr, DecidableEq

/-- Elementwise sum of two pandas series values: any missing operand makes
the result missing (`NaN + x = NaN`). -/
def optAdd (a b : Option ℚ) : Option ℚ :=
  match a, b with
  | some x, some y => some (x + y)
  | _, _ => none

/-- Halve a pandas series value; missing stays missing. -/
def optHalf (a : Option ℚ) : Option ℚ :=
  a.map (· / 2)

/-- Strict `>` between two pandas values with NaN semantics: any comparison
involving a missing value is `false` (as in `np.where(a > b, ...)`). -/
def optGt (a b : Option ℚ) : Bool :=
  match a, b with
  | some x, some y => decide (y < x)
  | _, _ => false

/-- The trailing window of length `w` ending at position `i`, as the list of
column values at positions `i - w + 1, …, i` (pandas
`rolling(window=w)` at row `i`).  Meaningful when `w ≤ i + 1`. -/
def windowSlice (w i : Nat) (col : Nat → Option ℚ) : List (Option ℚ) :=
  (List.range w).map (fun k => col (i + 1 - w + k))

/-- All the values of a window when none of them is missing, and `none` as
soon as one is (pandas counts the non-missing observations of the window
against `min_periods`, which defaults to the full window size). -/
def seqOption : List (Option ℚ) → Option (List ℚ)
  | [] => some []
  | none :: _ => none
  | some x :: l => (seqOption l).map (x :: ·)

/-- `col.rolling(window=w).max()` at position `i`.  With pandas' default
`min_periods = w`, the result is defined only when the window holds `w`
rows (`w ≤ i + 1`) and every one of them is non-missing; it is then the
maximum of those values. -/
def rollingMax (w : Nat) (col : Nat → Option ℚ) (i : Nat) : Option ℚ :=
  if w ≤ i + 1 then
    (seqOption (windowSlice w i col)).bind List.max?
  else none

/-- `col.rolling(window=w).min()` at position `i`; see `rollingMax`. -/
def rollingMin (w : Nat) (col : Nat → Option ℚ) (i : Nat) : Option ℚ :=
  if w ≤ i + 1 then
    (seqOption (windowSlice w i col)).bind List.min?
  else none

/-- `series.shift(k)` over a frame of `len` rows: the value plotted at
position `i` is the input value at position `i - k` when that is a valid
row, and missing otherwise.  `k` may be negative (a backward shift), as in
`shift(-lagging_len)`. -/
def shiftCol (len : Nat) (k : Int) (col : Nat → Option ℚ) (i : Nat) : Option ℚ :=
  let j : Int := (i : Int) - k
  if 0 ≤ j ∧ j < (len : Int) then col j.toNat else none

/-- The `high` column of the input frame (missing outside the frame). -/
def colHigh (df : List Bar) (i : Nat) : Option ℚ :=
  (df.get? i).map Bar.high

/-- The `low` column of the input frame. -/
def colLow (df : List Bar) (i : Nat) : Option ℚ :=
  (df.get? i).map Bar.low

/-- The `close` column of the input frame. -/
def colClose (df : List Bar) (i : Nat) : Option ℚ :=
  (df.get? i).map Bar.close

/-- `LIGHT_GREEN` of `ichimoku.py` (the bullish cloud-color token). -/
def LIGHT_GREEN : String := "rgba(144,238,144,0.3)"

/-- `LIGHT_RED` of `ichimoku.py` (the bearish cloud-color token). -/
def LIGHT_RED : String := "rgba(255,182,193,0.3)"

/-- The frame returned by `apply_ichimoku_cloud`: `len` rows, each column a
total function that is missing (`none`) outside `[0, len)`.  `cloud_color`
is a total `String` column because `np.where` fills every row. -/
structure IchimokuOutput where
  len : Nat
  time : Nat → Option Nat
  openp : Nat → Option ℚ
  high : Nat → Option ℚ
  low : Nat → Option ℚ
  close : Nat → Option ℚ
  volume : Nat → Option ℚ
  tenkan_sen : Nat → Option ℚ
  kijun_sen : Nat → Option ℚ
  chikou_span : Nat → Option ℚ
  senkou_span_a : Nat → Option ℚ
  senkou_span_b : Nat → Option ℚ
  cloud_color : Nat → String

/-- The tenkan-sen column computed on the input frame:
`(high.rolling(conversion_len).max() + low.rolling(conversion_len).min()) / 2`. -/
def tenkanCol (df : List Bar) (conversion_len : Nat) (i : Nat) : Option ℚ :=
  optHalf (optAdd (rollingMax conversion_len (colHigh df) i)
                  (rollingMin conversion_len (colLow df) i))

/-- The kijun-sen column computed on the input frame:
`(high.rolling(base_len).max() + low.rolling(base_len).min()) / 2`. -/
def kijunCol (df : List Bar) (base_len : Nat) (i : Nat) : Option ℚ :=
  optHalf (optAdd (rollingMax base_len (colHigh df) i)
                  (rollingMin base_len (colLow df) i))

/-- Embedding of `apply_ichimoku_cloud(df_in, conversion_len, base_len,
lagging_len, leading_span_b_len, cloud_shift)` from
`src/backend/app/services/ichimoku.py`, traced line by line:

* tenkan-sen / kijun-sen: rolling extrema over the original frame;
* `chikou_span = close.shift(-lagging_len)` over the original frame;
* the frame is extended by `cloud_shift` rows (`range(cloud_shift)`, so a
  negative `cloud_shift` appends nothing) whose `time` continues one day at
  a time from the last real bar and whose other columns are all missing;
  `df.index[-1]` / `df['time'].iloc[-1]` raise `IndexError` when the input
  frame is empty;
* `senkou_span_a = ((tenkan_sen + kijun_sen)/2).shift(cloud_shift)` and
  `senkou_span_b = ((high.rolling(leading_span_b_len).max() +
  low.rolling(leading_span_b_len).min())/2).shift(cloud_shift)`, both over
  the extended frame (whose appended rows carry missing values in every
  price column, so a rolling window touching them has fewer than
  `min_periods` observations and yields a missing value);
* `cloud_color = np.where(senkou_span_a > senkou_span_b, LIGHT_GREEN,
  LIGHT_RED)` — a strict comparison, false on any missing operand.

Window lengths are embedded as `Nat`; every claim about them assumes they
are positive.  `cloud_shift` is an `Int`, since the source accepts and is
run on negative values without raising.

`mkOut` is the frame built on the non-empty path; `apply_ichimoku_cloud`
wraps it with the empty-frame `IndexError`. -/
def mkOut (df : List Bar)
    (conversion_len base_len lagging_len leading_span_b_len : Nat)
    (cloud_shift : Int) : IchimokuOutput :=
  let n := df.length
  let extLen := n + cloud_shift.toNat
  let lastTime := ((df.getLast?).map Bar.time).getD 0
  let tenkan := tenkanCol df conversion_len
  let kijun := kijunCol df base_len
  let chikou := shiftCol n (-(lagging_len : Int)) (colClose df)
  let spanA := fun i =>
    if i < extLen then
      shiftCol extLen cloud_shift (fun j => optHalf (optAdd (tenkan j) (kijun j))) i
    else none
  let spanB := fun i =>
    if i < extLen then
      shiftCol extLen cloud_shift
        (fun j => optHalf (optAdd (rollingMax leading_span_b_len (colHigh df) j)
                                  (rollingMin leading_span_b_len (colLow df) j))) i
    else none
  { len := extLen
    time := fun i =>
      if i < n then (df.get? i).map Bar.time
      else if i < extLen then some (lastTime + (i - n) + 1)
      else none
    openp := fun i => (df.get? i).map Bar.openp
    high := colHigh df
    low := colLow df
    close := colClose df
    volume := fun i => (df.get? i).map Bar.volume
    tenkan_sen := tenkan
    kijun_sen := kijun
    chikou_span := chikou
    senkou_span_a := spanA
    senkou_span_b := spanB
    cloud_color := fun i =>
      if optGt (spanA i) (spanB i) then LIGHT_GREEN else LIGHT_RED }

/-- The call itself: `IndexError` on an empty frame (`df.index[-1]` /
`df['time'].iloc[-1]` both fail there, whichever is reached first),
otherwise the computed frame `mkOut …`; see the comment above `mkOut`. -/
def apply_ichimoku_cloud (df : List Bar)
    (conversion_len base_len lagging_len leading_span_b_len : Nat)
    (cloud_shift : Int) : Except PyError IchimokuOutput :=
  if df.isEmpty then
    .error .indexError
  else
    .ok (mkOut df conversion_len base_len lagging_len leading_span_b_len cloud_shift)

/-- `senkou_span_b` as the specification words it: the rolling extrema are
computed over the original bars only (a column that simply has no value at
the synthetic positions), and that column is then shifted forward by
`cloud_shift` over the extended axis. -/
def senkou_span_b_spec (df : List Bar) (leading_span_b_len : Nat)
    (cloud_shift : Int) (i : Nat) : Option ℚ :=
  if i < df.length + cloud_shift.toNat then
    shiftCol (df.length + cloud_shift.toNat) cloud_shift
      (fun j =>
        if j < df.length then
          optHalf (optAdd (rollingMax leading_span_b_len (colHigh df) j)
                          (rollingMin leading_span_b_len (colLow df) j))
        else none) i
  else none

/-- `v` is the greatest defined value of `col` on positions `lo..hi`
(inclusive): it is attained there and bounds every value there. -/
def IsWindowMax (lo hi : Nat) (col : Nat → Option ℚ) (v : ℚ) : Prop :=
  (∃ j, lo ≤ j ∧ j ≤ hi ∧ col j = some v) ∧
  (∀ j x, lo ≤ j → j ≤ hi → col j = some x → x ≤ v)

/-- `v` is the least defined value of `col` on positions `lo..hi`. -/
def IsWindowMin (lo hi : Nat) (col : Nat → Option ℚ) (v : ℚ) : Prop :=
  (∃ j, lo ≤ j ∧ j ≤ hi ∧ col j = some v) ∧
  (∀ j x, lo ≤ j → j ≤ hi → col j = some x → v ≤ x)

/-! ### The cloud-fill bucketing of `src/frontend/app/charts.py` -/

/-- One chart point as produced by `to_json(orient="records")` then
`json.loads`: a time and a value that may be `null`. -/
structure CloudPoint where
  time : Nat
  value : Option ℚ
deriving Repr, DecidableEq

/-- `df_ichimoku[['time', col]].rename(...).dropna().to_json(orient="records")`:
the rows whose time and value are both present, in frame order.  (The rows
dropped here are exactly the missing-value rows, so every emitted point
carries a non-null value.) -/
def dropnaPoints (len : Nat) (time : Nat → Option Nat) (col : Nat → Option ℚ) :
    List CloudPoint :=
  (List.range len).filterMap (fun i =>
    match time i, col i with
    | some t, some v => some ⟨t, some v⟩
    | _, _ => none)

/-- The four point lists built by the loop in `render_chart`:
`cloud_bullish_top`, `cloud_bullish_bottom`, `cloud_bearish_top`,
`cloud_bearish_bottom`. -/
structure CloudBuckets where
  bullish_top : List CloudPoint
  bullish_bottom : List CloudPoint
  bearish_top : List CloudPoint
  bearish_bottom : List CloudPoint
deriving Repr, DecidableEq

/-- One iteration of `for a_pt, b_pt in zip(senkou_span_a, senkou_span_b)`:
when the two times agree, either route the pair into the bullish or bearish
buckets (with `None` placeholders on the inactive side), or, if a value is
`null`, put placeholders in all four buckets; when the times differ, the
loop body is skipped entirely and nothing is appended anywhere. -/
def cloudFillStep (acc : CloudBuckets) (ab : CloudPoint × CloudPoint) :
    CloudBuckets :=
  let a := ab.1
  let b := ab.2
  if a.time = b.time then
    match a.value, b.value with
    | some av, some bv =>
      if bv ≤ av then
        { bullish_top := acc.bullish_top ++ [⟨a.time, some av⟩]
          bullish_bottom := acc.bullish_bottom ++ [⟨a.time, some bv⟩]
          bearish_top := acc.bearish_top ++ [⟨a.time, none⟩]
          bearish_bottom := acc.bearish_bottom ++ [⟨a.time, none⟩] }
      else
        { bullish_top := acc.bullish_top ++ [⟨a.time, none⟩]
          bullish_bottom := acc.bullish_bottom ++ [⟨a.time, none⟩]
          bearish_top := acc.bearish_top ++ [⟨b.time, some bv⟩]
          bearish_bottom := acc.bearish_bottom ++ [⟨b.time, some av⟩] }
    | _, _ =>
      { bullish_top := acc.bullish_top ++ [⟨a.time, none⟩]
        bullish_bottom := acc.bullish_bottom ++ [⟨a.time, none⟩]
        bearish_top := acc.bearish_top ++ [⟨a.time, none⟩]
        bearish_bottom := acc.bearish_bottom ++ [⟨a.time, none⟩] }
  else acc

/-- The whole bucketing loop of `render_chart` (lines 70–96 of
`charts.py`), over the two already-`dropna`'d span point lists. -/
def buildCloudFill (sa sb : List CloudPoint) : CloudBuckets :=
  (sa.zip sb).foldl cloudFillStep ⟨[], [], [], []⟩

/-! ### Concrete frames used by counterexamples and witnesses -/

/-- Four bars with strictly increasing prices `1, 2, 3, 4` on days `0..3`. -/
def sampleDf4 : List Bar :=
  [⟨0, 1, 1, 1, 1, 1⟩, ⟨1, 2, 2, 2, 2, 1⟩, ⟨2, 3, 3, 3, 3, 1⟩, ⟨3, 4, 4, 4, 4, 1⟩]

/-- Two bars whose prices are constantly `10`, on days `0` and `1`. -/
def constDf2 : List Bar :=
  [⟨0, 10, 10, 10, 10, 1⟩, ⟨1, 10, 10, 10, 10, 1⟩]

/-- Two bars with prices `1` then `2`, on days `0` and `1`. -/
def risingDf2 : List Bar :=
  [⟨0, 1, 1, 1, 1, 1⟩, ⟨1, 2, 2, 2, 2, 1⟩]

/-! ### Basic lemmas about the embedding -/

theorem apply_eq_ok (df : List Bar)
    (conversion_len base_len lagging_len leading_span_b_len : Nat)
    (cloud_shift : Int) (hne : df ≠ []) :
    apply_ichimoku_cloud df conversion_len base_len lagging_len
        leading_span_b_len cloud_shift
      = .ok (mkOut df conversion_len base_len lagging_len
               leading_span_b_len cloud_shift) := by
  simp [apply_ichimoku_cloud, hne]

theorem mkOut_len (df : List Bar)
    (conversion_len base_len lagging_len leading_span_b_len : Nat)
    (cloud_shift : Int) :
    (mkOut df conversion_len base_len lagging_len leading_span_b_len
      cloud_shift).len = df.length + cloud_shift.toNat := rfl

theorem mkOut_tenkan (df : List Bar)
    (conversion_len base_len lagging_len leading_span_b_len : Nat)
    (cloud_shift : Int) :
    (mkOut df conversion_len base_len lagging_len leading_span_b_len
      cloud_shift).tenkan_sen = tenkanCol df conversion_len := rfl

theorem mkOut_chikou (df : List Bar)
    (conversion_len base_len lagging_len leading_span_b_len : Nat)
    (cloud_shift : Int) :
    (mkOut df conversion_len base_len lagging_len leading_span_b_len
        cloud_shift).chikou_span
      = shiftCol df.length (-(lagging_len : Int)) (colClose df) := rfl

theorem mkOut_spanA (df : List Bar)
    (conversion_len base_len lagging_len leading_span_b_len : Nat)
    (cloud_shift : Int) (i : Nat) :
    (mkOut df conversion_len base_len lagging_len leading_span_b_len
        cloud_shift).senkou_span_a i
      = (if i < df.length + cloud_shift.toNat then
          shiftCol (df.length + cloud_shift.toNat) cloud_shift
            (fun j => optHalf (optAdd (tenkanCol df conversion_len j)
                                      (kijunCol df base_len j))) i
        else none) := rfl

theorem mkOut_spanB (df : List Bar)
    (conversion_len base_len lagging_len leading_span_b_len : Nat)
    (cloud_shift : Int) (i : Nat) :
    (mkOut df conversion_len base_len lagging_len leading_span_b_len
        cloud_shift).senkou_span_b i
      = (if i < df.length + cloud_shift.toNat then
          shiftCol (df.length + cloud_shift.toNat) cloud_shift
            (fun j => optHalf (optAdd (rollingMax leading_span_b_len (colHigh df) j)
                                      (rollingMin leading_span_b_len (colLow df) j))) i
        else none) := rfl

theorem mkOut_cloud_color (df : List Bar)
    (conversion_len base_len lagging_len leading_span_b_len : Nat)
    (cloud_shift : Int) (i : Nat) :
    (mkOut df conversion_len base_len lagging_len leading_span_b_len
        cloud_shift).cloud_color i
      = (if optGt ((mkOut df conversion_len base_len lagging_len
            leading_span_b_len cloud_shift).senkou_span_a i)
            ((mkOut df conversion_len base_len lagging_len
            leading_span_b_len cloud_shift).senkou_span_b i) = true
        then LIGHT_GREEN else LIGHT_RED) := rfl

theorem optGt_eq_true_iff {a b : Option ℚ} :
    optGt a b = true ↔ ∃ x y, a = some x ∧ b = some y ∧ y < x := by
  cases a <;> cases b <;> simp [optGt]

theorem LIGHT_GREEN_ne_LIGHT_RED : LIGHT_GREEN ≠ LIGHT_RED := by
  decide

instance : Std.Antisymm ((· ≤ ·) : ℚ → ℚ → Prop) :=
  ⟨fun h h2 => le_antisymm h h2⟩

theorem rat_max?_eq_some_iff {l : List ℚ} {a : ℚ} :
    l.max? = some a ↔ a ∈ l ∧ ∀ b ∈ l, b ≤ a :=
  List.max?_eq_some_iff (fun x => le_refl x) (fun x y => max_choice x y)
    (fun _ _ _ => max_le_iff)

theorem rat_min?_eq_some_iff {l : List ℚ} {a : ℚ} :
    l.min? = some a ↔ a ∈ l ∧ ∀ b ∈ l, a ≤ b :=
  List.min?_eq_some_iff (fun x => le_refl x) (fun x y => min_choice x y)
    (fun _ _ _ => le_min_iff)

theorem seqOption_map_some (l : List ℚ) : seqOption (l.map some) = some l := by
  induction l with
  | nil => rfl
  | cons x xs ih => simp [seqOption, ih]

theorem seqOption_eq_none {l : List (Option ℚ)} (h : none ∈ l) :
    seqOption l = none := by
  induction l with
  | nil => simp at h
  | cons x xs ih =>
    cases x with
    | none => rfl
    | some v =>
      rcases List.mem_cons.mp h with h1 | h2
      · exact absurd h1.symm (by simp)
      · simp [seqOption, ih h2]

theorem rollingMax_eq_none_of_short {w i : Nat} (col : Nat → Option ℚ)
    (h : i + 1 < w) : rollingMax w col i = none := by
  unfold rollingMax
  rw [if_neg (by omega)]

theorem rollingMin_eq_none_of_short {w i : Nat} (col : Nat → Option ℚ)
    (h : i + 1 < w) : rollingMin w col i = none := by
  unfold rollingMin
  rw [if_neg (by omega)]

theorem windowSlice_mem_none {w i j : Nat} {col : Nat → Option ℚ}
    (h1 : i + 1 - w ≤ j) (h2 : j ≤ i) (hw : w ≤ i + 1) (hcol : col j = none) :
    none ∈ windowSlice w i col := by
  unfold windowSlice
  refine List.mem_map.mpr ⟨j - (i + 1 - w), List.mem_range.mpr (by omega), ?_⟩
  rw [show i + 1 - w + (j - (i + 1 - w)) = j by omega, hcol]

theorem rollingMax_eq_none_of_missing {w i j : Nat} (col : Nat → Option ℚ)
    (h1 : i + 1 - w ≤ j) (h2 : j ≤ i) (hcol : col j = none) :
    rollingMax w col i = none := by
  by_cases hw : w ≤ i + 1
  · unfold rollingMax
    rw [if_pos hw, seqOption_eq_none (windowSlice_mem_none h1 h2 hw hcol)]
    rfl
  · exact rollingMax_eq_none_of_short col (by omega)

theorem rollingMin_eq_none_of_missing {w i j : Nat} (col : Nat → Option ℚ)
    (h1 : i + 1 - w ≤ j) (h2 : j ≤ i) (hcol : col j = none) :
    rollingMin w col i = none := by
  by_cases hw : w ≤ i + 1
  · unfold rollingMin
    rw [if_pos hw, seqOption_eq_none (windowSlice_mem_none h1 h2 hw hcol)]
    rfl
  · exact rollingMin_eq_none_of_short col (by omega)

theorem windowSlice_all_some {w i : Nat} {col : Nat → Option ℚ} {f : Nat → ℚ}
    (hwi : w ≤ i + 1)
    (hdef : ∀ j, i + 1 - w ≤ j → j ≤ i → col j = some (f j)) :
    windowSlice w i col
      = ((List.range w).map (fun k => f (i + 1 - w + k))).map some := by
  unfold windowSlice
  rw [List.map_map]
  apply List.map_congr_left
  intro k hk
  have hk2 := List.mem_range.mp hk
  exact hdef _ (by omega) (by omega)

theorem rollingMax_window {w i : Nat} {col : Nat → Option ℚ} {f : Nat → ℚ}
    (hw : 0 < w) (hwi : w ≤ i + 1)
    (hdef : ∀ j, i + 1 - w ≤ j → j ≤ i → col j = some (f j)) :
    ∃ v, rollingMax w col i = some v ∧ IsWindowMax (i + 1 - w) i col v := by
  have hslice := windowSlice_all_some hwi hdef
  set l := (List.range w).map (fun k => f (i + 1 - w + k)) with hl
  have hseq : seqOption (windowSlice w i col) = some l := by
    rw [hslice]
    exact seqOption_map_some l
  have hlne : l ≠ [] := by
    simp [hl]
    omega
  obtain ⟨v, hv⟩ : ∃ v, l.max? = some v := by
    cases hmax : l.max? with
    | none => exact absurd (List.max?_eq_none_iff.mp hmax) hlne
    | some v => exact ⟨v, rfl⟩
  obtain ⟨hmem, hub⟩ := rat_max?_eq_some_iff.mp hv
  refine ⟨v, ?_, ?_, ?_⟩
  · unfold rollingMax
    rw [if_pos hwi, hseq]
    simpa using hv
  · obtain ⟨k, hk, hfk⟩ := List.mem_map.mp hmem
    have hk2 := List.mem_range.mp hk
    exact ⟨i + 1 - w + k, by omega, by omega,
      by rw [hdef _ (by omega) (by omega), hfk]⟩
  · intro j x hj1 hj2 hcol
    have hcol2 := hdef j hj1 hj2
    rw [hcol2] at hcol
    have hmem2 : f j ∈ l := by
      rw [hl]
      exact List.mem_map.mpr ⟨j - (i + 1 - w), List.mem_range.mpr (by omega),
        by rw [show i + 1 - w + (j - (i + 1 - w)) = j by omega]⟩
    rw [← Option.some.inj hcol]
    exact hub _ hmem2

theorem rollingMin_window {w i : Nat} {col : Nat → Option ℚ} {f : Nat → ℚ}
    (hw : 0 < w) (hwi : w ≤ i + 1)
    (hdef : ∀ j, i + 1 - w ≤ j → j ≤ i → col j = some (f j)) :
    ∃ v, rollingMin w col i = some v ∧ IsWindowMin (i + 1 - w) i col v := by
  have hslice := windowSlice_all_some hwi hdef
  set l := (List.range w).map (fun k => f (i + 1 - w + k)) with hl
  have hseq : seqOption (windowSlice w i col) = some l := by
    rw [hslice]
    exact seqOption_map_some l
  have hlne : l ≠ [] := by
    simp [hl]
    omega
  obtain ⟨v, hv⟩ : ∃ v, l.min? = some v := by
    cases hmin : l.min? with
    | none => exact absurd (List.min?_eq_none_iff.mp hmin) hlne
    | some v => exact ⟨v, rfl⟩
  obtain ⟨hmem, hlb⟩ := rat_min?_eq_some_iff.mp hv
  refine ⟨v, ?_, ?_, ?_⟩
  · unfold rollingMin
    rw [if_pos hwi, hseq]
    simpa using hv
  · obtain ⟨k, hk, hfk⟩ := List.mem_map.mp hmem
    have hk2 := List.mem_range.mp hk
    exact ⟨i + 1 - w + k, by omega, by omega,
      by rw [hdef _ (by omega) (by omega), hfk]⟩
  · intro j x hj1 hj2 hcol
    have hcol2 := hdef j hj1 hj2
    rw [hcol2] at hcol
    have hmem2 : f j ∈ l := by
      rw [hl]
      exact List.mem_map.mpr ⟨j - (i + 1 - w), List.mem_range.mpr (by omega),
        by rw [show i + 1 - w + (j - (i + 1 - w)) = j by omega]⟩
    rw [← Option.some.inj hcol]
    exact hlb _ hmem2

theorem shiftCol_eq (len : Nat) (k : Int) (col : Nat → Option ℚ) (i : Nat) :
    shiftCol len k col i
      = (if 0 ≤ (i : Int) - k ∧ (i : Int) - k < (len : Int) then
          col ((i : Int) - k).toNat
        else none) := rfl

theorem colHigh_eq_some_getD {df : List Bar} {j : Nat} (h : j < df.length) :
    colHigh df j = some (((df.get? j).map Bar.high).getD 0) := by
  unfold colHigh
  rw [List.get?_eq_get h]
  rfl

theorem colLow_eq_some_getD {df : List Bar} {j : Nat} (h : j < df.length) :
    colLow df j = some (((df.get? j).map Bar.low).getD 0) := by
  unfold colLow
  rw [List.get?_eq_get h]
  rfl

theorem colHigh_eq_none {df : List Bar} {j : Nat} (h : df.length ≤ j) :
    colHigh df j = none := by
  unfold colHigh
  rw [List.get?_eq_none.mpr h]
  rfl

theorem colClose_eq_some {df : List Bar} {j : Nat} (h : j < df.length) :
    colClose df j = some ((df.get ⟨j, h⟩).close) := by
  unfold colClose
  rw [List.get?_eq_get h]
  rfl

/-! ### Claim theorems -/

/-- C6, counterexample: on the empty series with the default parameters the
computation fails with the untyped `IndexError` of positional indexing,
which is not the typed `InvalidInputError` the claim names. -/
theorem c6_counterexample :
    apply_ichimoku_cloud [] 9 26 26 52 26 = .error .indexError ∧
    apply_ichimoku_cloud [] 9 26 26 52 26 ≠ .error .invalidInputError := by
  refine ⟨rfl, ?_⟩
  intro h
  simp [apply_ichimoku_cloud] at h

/-- C6, amended: on an empty input series the computation does fail
synchronously for every parameter set, but with the host `IndexError`
raised by `df.index[-1]` / `df['time'].iloc[-1]` on the empty frame — the
source defines no `InvalidInputError` type at all. -/
theorem c6_empty_series_index_error
    (conversion_len base_len lagging_len leading_span_b_len : Nat)
    (cloud_shift : Int) :
    apply_ichimoku_cloud [] conversion_len base_len lagging_len
      leading_span_b_len cloud_shift = .error .indexError := rfl

/-- C9, counterexample: a negative `cloud_shift` does not raise anything —
on a concrete four-bar series with `cloud_shift = -1` the call returns
successfully instead of failing with `InvalidInputError`. -/
theorem c9_counterexample :
    (apply_ichimoku_cloud sampleDf4 9 26 26 52 (-1)).isOk = true ∧
    apply_ichimoku_cloud sampleDf4 9 26 26 52 (-1)
      ≠ .error .invalidInputError := by
  refine ⟨rfl, ?_⟩
  intro h
  rw [apply_eq_ok sampleDf4 9 26 26 52 (-1) (by decide)] at h
  simp at h

/-- C9, amended: extension with a negative `cloud_shift` raises no error on
a non-empty series: `range(cloud_shift)` is empty, so no synthetic bars are
appended and the output keeps the original length. -/
theorem c9_negative_shift_no_error (df : List Bar)
    (conversion_len base_len lagging_len leading_span_b_len : Nat)
    (cloud_shift : Int) (hne : df ≠ []) (hneg : cloud_shift < 0) :
    ∃ out,
      apply_ichimoku_cloud df conversion_len base_len lagging_len
        leading_span_b_len cloud_shift = .ok out ∧
      out.len = df.length := by
  refine ⟨_, apply_eq_ok df _ _ _ _ _ hne, ?_⟩
  show df.length + cloud_shift.toNat = df.length
  have : cloud_shift.toNat = 0 := Int.toNat_eq_zero.mpr (le_of_lt hneg)
  omega

/-- Witness for `c9_negative_shift_no_error` at a concrete input. -/
theorem c9_witness :
    ∃ out,
      apply_ichimoku_cloud sampleDf4 9 26 26 52 (-1) = .ok out ∧
      out.len = sampleDf4.length :=
  c9_negative_shift_no_error sampleDf4 9 26 26 52 (-1) (by decide) (by decide)

/-- C10: whenever the computation succeeds, `cloud_color` is a total
column — `np.where` fills every row of the output, synthetic rows and
undefined-span rows included, with one of the two fixed color tokens. -/
theorem c10_cloud_color_total (df : List Bar)
    (conversion_len base_len lagging_len leading_span_b_len : Nat)
    (cloud_shift : Int) (hne : df ≠ []) :
    ∃ out,
      apply_ichimoku_cloud df conversion_len base_len lagging_len
        leading_span_b_len cloud_shift = .ok out ∧
      ∀ i, out.cloud_color i = LIGHT_GREEN ∨ out.cloud_color i = LIGHT_RED := by
  refine ⟨_, apply_eq_ok df _ _ _ _ _ hne, fun i => ?_⟩
  rw [mkOut_cloud_color]
  by_cases h : optGt ((mkOut df conversion_len base_len lagging_len
      leading_span_b_len cloud_shift).senkou_span_a i)
      ((mkOut df conversion_len base_len lagging_len
      leading_span_b_len cloud_shift).senkou_span_b i) = true
  · exact Or.inl (if_pos h)
  · exact Or.inr (if_neg h)

/-- Witness for `c10_cloud_color_total` at a concrete input. -/
theorem c10_witness :
    ∃ out,
      apply_ichimoku_cloud sampleDf4 9 26 26 52 26 = .ok out ∧
      ∀ i, out.cloud_color i = LIGHT_GREEN ∨ out.cloud_color i = LIGHT_RED :=
  c10_cloud_color_total sampleDf4 9 26 26 52 26 (by decide)

/-- C4, counterexample: with two constant-price bars and unit parameters,
position 1 has `senkou_span_a = senkou_span_b = 10` — both defined, span A
≥ span B — yet `cloud_color` is the bearish token, because the source
classifies with the strict comparison `senkou_span_a > senkou_span_b`. -/
theorem c4_counterexample :
    (apply_ichimoku_cloud constDf2 1 1 1 1 1).toOption.map (fun out =>
      (out.senkou_span_a 1, out.senkou_span_b 1, out.cloud_color 1))
      = some (some 10, some 10, LIGHT_RED) ∧
    LIGHT_GREEN ≠ LIGHT_RED := by
  have hA : (mkOut constDf2 1 1 1 1 1).senkou_span_a 1 = some 10 := by
    simp [mkOut_spanA, shiftCol, tenkanCol, kijunCol, rollingMax, rollingMin,
      windowSlice, colHigh, colLow, constDf2, optHalf, optAdd,
      seqOption, List.range_succ, List.max?, List.min?]
  have hB : (mkOut constDf2 1 1 1 1 1).senkou_span_b 1 = some 10 := by
    simp [mkOut_spanB, shiftCol, rollingMax, rollingMin,
      windowSlice, colHigh, colLow, constDf2, optHalf, optAdd,
      seqOption, List.range_succ, List.max?, List.min?]
  refine ⟨?_, LIGHT_GREEN_ne_LIGHT_RED⟩
  rw [apply_eq_ok _ _ _ _ _ _ (by decide)]
  show some ((mkOut constDf2 1 1 1 1 1).senkou_span_a 1,
        (mkOut constDf2 1 1 1 1 1).senkou_span_b 1,
        (mkOut constDf2 1 1 1 1 1).cloud_color 1) = _
  rw [mkOut_cloud_color, hA, hB]
  norm_num [optGt]

/-- C4, amended: the classification is strict — a position is bullish
exactly when both spans are defined and span A > span B; every other
position, including those with span A = span B and those where either span
is undefined, receives the bearish token. -/
theorem c4_strict_classification (df : List Bar)
    (conversion_len base_len lagging_len leading_span_b_len : Nat)
    (cloud_shift : Int) (hne : df ≠ []) :
    ∃ out,
      apply_ichimoku_cloud df conversion_len base_len lagging_len
        leading_span_b_len cloud_shift = .ok out ∧
      ∀ i,
        (out.cloud_color i = LIGHT_GREEN ↔
          ∃ a b, out.senkou_span_a i = some a ∧
            out.senkou_span_b i = some b ∧ b < a) ∧
        (out.cloud_color i = LIGHT_RED ↔
          ¬ ∃ a b, out.senkou_span_a i = some a ∧
            out.senkou_span_b i = some b ∧ b < a) := by
  refine ⟨_, apply_eq_ok df _ _ _ _ _ hne, fun i => ?_⟩
  set out := mkOut df conversion_len base_len lagging_len
    leading_span_b_len cloud_shift with hout
  have hcc : out.cloud_color i =
      if optGt (out.senkou_span_a i) (out.senkou_span_b i) = true
      then LIGHT_GREEN else LIGHT_RED := mkOut_cloud_color _ _ _ _ _ _ _
  by_cases h : optGt (out.senkou_span_a i) (out.senkou_span_b i) = true
  · have hg : out.cloud_color i = LIGHT_GREEN := by rw [hcc, if_pos h]
    have hex := optGt_eq_true_iff.mp h
    refine ⟨⟨fun _ => hex, fun _ => hg⟩, ?_, ?_⟩
    · intro hr
      exact absurd (hg.symm.trans hr) LIGHT_GREEN_ne_LIGHT_RED
    · intro hn
      exact absurd hex hn
  · have hr : out.cloud_color i = LIGHT_RED := by rw [hcc, if_neg h]
    have hnex : ¬ ∃ a b, out.senkou_span_a i = some a ∧
        out.senkou_span_b i = some b ∧ b < a :=
      fun hex => h (optGt_eq_true_iff.mpr hex)
    refine ⟨⟨fun hg => ?_, fun hex => absurd hex hnex⟩,
      fun _ => hnex, fun _ => hr⟩
    exact absurd (hg.symm.trans hr) LIGHT_GREEN_ne_LIGHT_RED

/-- Witness for `c4_strict_classification` at a concrete input. -/
theorem c4_witness :
    ∃ out,
      apply_ichimoku_cloud constDf2 1 1 1 1 1 = .ok out ∧
      ∀ i,
        (out.cloud_color i = LIGHT_GREEN ↔
          ∃ a b, out.senkou_span_a i = some a ∧
            out.senkou_span_b i = some b ∧ b < a) ∧
        (out.cloud_color i = LIGHT_RED ↔
          ¬ ∃ a b, out.senkou_span_a i = some a ∧
            out.senkou_span_b i = some b ∧ b < a) :=
  c4_strict_classification constDf2 1 1 1 1 1 (by decide)

/-- C5, at its failing input: two bars of rising prices with parameters
`conversion_len=1, base_len=1, lagging_len=1, leading_span_b_len=2,
cloud_shift=1`.  Both spans are defined at position 2 (`2` and `3/2`), yet
the bucketing emits nothing at all — all four buckets come back empty —
because the `dropna()` applied before the `zip` compacts the two span
lists over different starting positions (`senkou_span_a` from position 1,
`senkou_span_b` from position 2), the `a_pt["time"] == b_pt["time"]`
guard then fails on every pair, and the placeholder branch lines 91–96 of
`charts.py` is unreachable. -/
theorem c5_bucketing_failing_input :
    (apply_ichimoku_cloud risingDf2 1 1 1 2 1).toOption.map (fun out =>
      (buildCloudFill
        (dropnaPoints out.len out.time out.senkou_span_a)
        (dropnaPoints out.len out.time out.senkou_span_b),
       out.senkou_span_a 2, out.senkou_span_b 2))
      = some (⟨[], [], [], []⟩, some 2, some (3/2)) := by
  have hA0 : (mkOut risingDf2 1 1 1 2 1).senkou_span_a 0 = none := by
    simp [mkOut_spanA, shiftCol, tenkanCol, kijunCol, rollingMax, rollingMin,
      windowSlice, colHigh, colLow, risingDf2, optHalf, optAdd,
      seqOption, List.range_succ, List.max?, List.min?]
  have hA1 : (mkOut risingDf2 1 1 1 2 1).senkou_span_a 1 = some 1 := by
    simp [mkOut_spanA, shiftCol, tenkanCol, kijunCol, rollingMax, rollingMin,
      windowSlice, colHigh, colLow, risingDf2, optHalf, optAdd,
      seqOption, List.range_succ, List.max?, List.min?]
  have hA2 : (mkOut risingDf2 1 1 1 2 1).senkou_span_a 2 = some 2 := by
    simp [mkOut_spanA, shiftCol, tenkanCol, kijunCol, rollingMax, rollingMin,
      windowSlice, colHigh, colLow, risingDf2, optHalf, optAdd,
      seqOption, List.range_succ, List.max?, List.min?]
  have hB0 : (mkOut risingDf2 1 1 1 2 1).senkou_span_b 0 = none := by
    simp [mkOut_spanB, shiftCol, rollingMax, rollingMin,
      windowSlice, colHigh, colLow, risingDf2, optHalf, optAdd,
      seqOption, List.range_succ, List.max?, List.min?]
  have hB1 : (mkOut risingDf2 1 1 1 2 1).senkou_span_b 1 = none := by
    simp [mkOut_spanB, shiftCol, rollingMax, rollingMin,
      windowSlice, colHigh, colLow, risingDf2, optHalf, optAdd,
      seqOption, List.range_succ, List.max?, List.min?]
  have hB2 : (mkOut risingDf2 1 1 1 2 1).senkou_span_b 2 = some (3/2) := by
    simp [mkOut_spanB, shiftCol, rollingMax, rollingMin,
      windowSlice, colHigh, colLow, risingDf2, optHalf, optAdd,
      seqOption, List.range_succ, List.max?, List.min?]
    norm_num [max_def, min_def]
  have htime : ∀ i, (mkOut risingDf2 1 1 1 2 1).time i =
      (if i < 2 then some i else if i < 3 then some 2 else none) := by
    intro i
    show (if i < risingDf2.length then (risingDf2.get? i).map Bar.time
          else if i < risingDf2.length + (1:Int).toNat then
            some ((risingDf2.getLast?.map Bar.time).getD 0 + (i - risingDf2.length) + 1)
          else none) = _
    rcases Nat.lt_or_ge i 2 with h2 | h2
    · rw [if_pos (by simpa [risingDf2] using h2), if_pos h2]
      interval_cases i <;> simp [risingDf2]
    · rw [if_neg (by simp [risingDf2]; omega)]
      rcases Nat.lt_or_ge i 3 with h3 | h3
      · rw [if_pos (by simp [risingDf2]; omega), if_neg (by omega), if_pos h3]
        simp [risingDf2]
        omega
      · rw [if_neg (by simp [risingDf2]; omega), if_neg (by omega),
          if_neg (by omega)]
  have hdropA : dropnaPoints (mkOut risingDf2 1 1 1 2 1).len
      (mkOut risingDf2 1 1 1 2 1).time (mkOut risingDf2 1 1 1 2 1).senkou_span_a
      = [⟨1, some 1⟩, ⟨2, some 2⟩] := by
    have hlen : (mkOut risingDf2 1 1 1 2 1).len = 3 := by
      rw [mkOut_len]; rfl
    rw [hlen]
    simp [dropnaPoints, List.range_succ, hA0, hA1, hA2, htime]
  have hdropB : dropnaPoints (mkOut risingDf2 1 1 1 2 1).len
      (mkOut risingDf2 1 1 1 2 1).time (mkOut risingDf2 1 1 1 2 1).senkou_span_b
      = [⟨2, some (3/2)⟩] := by
    have hlen : (mkOut risingDf2 1 1 1 2 1).len = 3 := by
      rw [mkOut_len]; rfl
    rw [hlen]
    simp [dropnaPoints, List.range_succ, hB0, hB1, hB2, htime]
  rw [apply_eq_ok _ _ _ _ _ _ (by decide)]
  show some (buildCloudFill
        (dropnaPoints (mkOut risingDf2 1 1 1 2 1).len
          (mkOut risingDf2 1 1 1 2 1).time
          (mkOut risingDf2 1 1 1 2 1).senkou_span_a)
        (dropnaPoints (mkOut risingDf2 1 1 1 2 1).len
          (mkOut risingDf2 1 1 1 2 1).time
          (mkOut risingDf2 1 1 1 2 1).senkou_span_b),
       (mkOut risingDf2 1 1 1 2 1).senkou_span_a 2,
       (mkOut risingDf2 1 1 1 2 1).senkou_span_b 2) = _
  rw [hdropA, hdropB, hA2, hB2]
  simp [buildCloudFill, cloudFillStep]

theorem mkOut_time (df : List Bar)
    (conversion_len base_len lagging_len leading_span_b_len : Nat)
    (cloud_shift : Int) (i : Nat) :
    (mkOut df conversion_len base_len lagging_len leading_span_b_len
        cloud_shift).time i
      = (if i < df.length then (df.get? i).map Bar.time
        else if i < df.length + cloud_shift.toNat then
          some ((df.getLast?.map Bar.time).getD 0 + (i - df.length) + 1)
        else none) := rfl

theorem mkOut_openp (df : List Bar)
    (conversion_len base_len lagging_len leading_span_b_len : Nat)
    (cloud_shift : Int) (i : Nat) :
    (mkOut df conversion_len base_len lagging_len leading_span_b_len
        cloud_shift).openp i = (df.get? i).map Bar.openp := rfl

theorem mkOut_high (df : List Bar)
    (conversion_len base_len lagging_len leading_span_b_len : Nat)
    (cloud_shift : Int) :
    (mkOut df conversion_len base_len lagging_len leading_span_b_len
        cloud_shift).high = colHigh df := rfl

theorem mkOut_low (df : List Bar)
    (conversion_len base_len lagging_len leading_span_b_len : Nat)
    (cloud_shift : Int) :
    (mkOut df conversion_len base_len lagging_len leading_span_b_len
        cloud_shift).low = colLow df := rfl

theorem mkOut_close (df : List Bar)
    (conversion_len base_len lagging_len leading_span_b_len : Nat)
    (cloud_shift : Int) :
    (mkOut df conversion_len base_len lagging_len leading_span_b_len
        cloud_shift).close = colClose df := rfl

theorem mkOut_volume (df : List Bar)
    (conversion_len base_len lagging_len leading_span_b_len : Nat)
    (cloud_shift : Int) (i : Nat) :
    (mkOut df conversion_len base_len lagging_len leading_span_b_len
        cloud_shift).volume i = (df.get? i).map Bar.volume := rfl

/-- C1: on a non-empty series with `cloud_shift ≥ 0` the computation
succeeds, the output has `original length + cloud_shift` rows, the original
bars sit unchanged at their original positions, and the `cloud_shift`
synthetic bars occupy the tail with day-by-day times and no price data. -/
theorem c1_length_invariant (df : List Bar)
    (conversion_len base_len lagging_len leading_span_b_len : Nat)
    (cloud_shift : Int) (hne : df ≠ []) (hcs : 0 ≤ cloud_shift) :
    ∃ out,
      apply_ichimoku_cloud df conversion_len base_len lagging_len
        leading_span_b_len cloud_shift = .ok out ∧
      out.len = df.length + cloud_shift.toNat ∧
      (∀ i, ∀ h : i < df.length,
        out.time i = some ((df.get ⟨i, h⟩).time) ∧
        out.openp i = some ((df.get ⟨i, h⟩).openp) ∧
        out.high i = some ((df.get ⟨i, h⟩).high) ∧
        out.low i = some ((df.get ⟨i, h⟩).low) ∧
        out.close i = some ((df.get ⟨i, h⟩).close) ∧
        out.volume i = some ((df.get ⟨i, h⟩).volume)) ∧
      (∀ i, df.length ≤ i → i < out.len →
        out.time i = some ((df.getLast?.map Bar.time).getD 0
          + (i - df.length) + 1) ∧
        out.openp i = none ∧ out.high i = none ∧ out.low i = none ∧
        out.close i = none ∧ out.volume i = none) := by
  refine ⟨_, apply_eq_ok df _ _ _ _ _ hne, mkOut_len _ _ _ _ _ _, ?_, ?_⟩
  · intro i h
    refine ⟨?_, ?_, ?_, ?_, ?_, ?_⟩
    · rw [mkOut_time, if_pos h, List.get?_eq_get h]
      rfl
    · rw [mkOut_openp, List.get?_eq_get h]
      rfl
    · rw [mkOut_high]
      unfold colHigh
      rw [List.get?_eq_get h]
      rfl
    · rw [mkOut_low]
      unfold colLow
      rw [List.get?_eq_get h]
      rfl
    · rw [mkOut_close]
      exact colClose_eq_some h
    · rw [mkOut_volume, List.get?_eq_get h]
      rfl
  · intro i hge hlt
    rw [mkOut_len] at hlt
    refine ⟨?_, ?_, ?_, ?_, ?_, ?_⟩
    · rw [mkOut_time, if_neg (by omega), if_pos hlt]
    · rw [mkOut_openp, List.get?_eq_none.mpr hge]
      rfl
    · rw [mkOut_high]
      exact colHigh_eq_none hge
    · rw [mkOut_low]
      unfold colLow
      rw [List.get?_eq_none.mpr hge]
      rfl
    · rw [mkOut_close]
      unfold colClose
      rw [List.get?_eq_none.mpr hge]
      rfl
    · rw [mkOut_volume, List.get?_eq_none.mpr hge]
      rfl

/-- Witness for `c1_length_invariant` at a concrete input. -/
theorem c1_witness :
    ∃ out,
      apply_ichimoku_cloud sampleDf4 9 26 26 52 26 = .ok out ∧
      out.len = sampleDf4.length + (26 : Int).toNat ∧
      (∀ i, ∀ h : i < sampleDf4.length,
        out.time i = some ((sampleDf4.get ⟨i, h⟩).time) ∧
        out.openp i = some ((sampleDf4.get ⟨i, h⟩).openp) ∧
        out.high i = some ((sampleDf4.get ⟨i, h⟩).high) ∧
        out.low i = some ((sampleDf4.get ⟨i, h⟩).low) ∧
        out.close i = some ((sampleDf4.get ⟨i, h⟩).close) ∧
        out.volume i = some ((sampleDf4.get ⟨i, h⟩).volume)) ∧
      (∀ i, sampleDf4.length ≤ i → i < out.len →
        out.time i = some ((sampleDf4.getLast?.map Bar.time).getD 0
          + (i - sampleDf4.length) + 1) ∧
        out.openp i = none ∧ out.high i = none ∧ out.low i = none ∧
        out.close i = none ∧ out.volume i = none) :=
  c1_length_invariant sampleDf4 9 26 26 52 26 (by decide) (by decide)

/-- C2: for every position of the input series, from position
`conversion_len - 1` on, `tenkan_sen` is the average of the greatest `high`
and the least `low` over the trailing window of `conversion_len` bars, and
before that position it is missing (`none`, not `0`). -/
theorem c2_tenkan_window (df : List Bar)
    (conversion_len base_len lagging_len leading_span_b_len : Nat)
    (cloud_shift : Int) (i : Nat) (hne : df ≠ [])
    (hconv : 0 < conversion_len) :
    ∃ out,
      apply_ichimoku_cloud df conversion_len base_len lagging_len
        leading_span_b_len cloud_shift = .ok out ∧
      (conversion_len - 1 ≤ i → i < df.length →
        ∃ hv lv,
          IsWindowMax (i + 1 - conversion_len) i (colHigh df) hv ∧
          IsWindowMin (i + 1 - conversion_len) i (colLow df) lv ∧
          out.tenkan_sen i = some ((hv + lv) / 2)) ∧
      (i < conversion_len - 1 → out.tenkan_sen i = none) := by
  refine ⟨_, apply_eq_ok df _ _ _ _ _ hne, ?_, ?_⟩
  · intro hge hlt
    have hwi : conversion_len ≤ i + 1 := by omega
    obtain ⟨hv, hmax_eq, hmax⟩ :=
      rollingMax_window (f := fun j => ((df.get? j).map Bar.high).getD 0)
        hconv hwi (fun j h1 h2 => colHigh_eq_some_getD (by omega))
    obtain ⟨lv, hmin_eq, hmin⟩ :=
      rollingMin_window (f := fun j => ((df.get? j).map Bar.low).getD 0)
        hconv hwi (fun j h1 h2 => colLow_eq_some_getD (by omega))
    refine ⟨hv, lv, hmax, hmin, ?_⟩
    rw [mkOut_tenkan]
    unfold tenkanCol
    rw [hmax_eq, hmin_eq]
    rfl
  · intro hlt
    rw [mkOut_tenkan]
    unfold tenkanCol
    rw [rollingMax_eq_none_of_short _ (by omega)]
    rfl

/-- Witness for `c2_tenkan_window` at a concrete input. -/
theorem c2_witness :
    ∃ out,
      apply_ichimoku_cloud sampleDf4 2 26 26 52 26 = .ok out ∧
      ((2 : Nat) - 1 ≤ 1 → 1 < sampleDf4.length →
        ∃ hv lv,
          IsWindowMax (1 + 1 - 2) 1 (colHigh sampleDf4) hv ∧
          IsWindowMin (1 + 1 - 2) 1 (colLow sampleDf4) lv ∧
          out.tenkan_sen 1 = some ((hv + lv) / 2)) ∧
      (1 < (2 : Nat) - 1 → out.tenkan_sen 1 = none) :=
  c2_tenkan_window sampleDf4 2 26 26 52 26 1 (by decide) (by decide)

/-- C3: `chikou_span` at position `i` is the `close` of position
`i + lagging_len` whenever that is a position of the input series, and is
missing otherwise (in particular on the last `lagging_len` real bars and
on every synthetic bar). -/
theorem c3_chikou_shift (df : List Bar)
    (conversion_len base_len lagging_len leading_span_b_len : Nat)
    (cloud_shift : Int) (i : Nat) (hne : df ≠ []) :
    ∃ out,
      apply_ichimoku_cloud df conversion_len base_len lagging_len
        leading_span_b_len cloud_shift = .ok out ∧
      (∀ h : i + lagging_len < df.length,
        out.chikou_span i = some ((df.get ⟨i + lagging_len, h⟩).close)) ∧
      (df.length ≤ i + lagging_len → out.chikou_span i = none) := by
  refine ⟨_, apply_eq_ok df _ _ _ _ _ hne, ?_, ?_⟩
  · intro h
    rw [mkOut_chikou, shiftCol_eq, if_pos ⟨by omega, by omega⟩,
      show ((i : Int) - -(lagging_len : Int)).toNat = i + lagging_len
        by omega]
    exact colClose_eq_some h
  · intro h
    rw [mkOut_chikou, shiftCol_eq, if_neg (by omega)]

/-- Witness for `c3_chikou_shift` at a concrete input. -/
theorem c3_witness :
    ∃ out,
      apply_ichimoku_cloud sampleDf4 9 26 2 52 26 = .ok out ∧
      (∀ h : 0 + 2 < sampleDf4.length,
        out.chikou_span 0 = some ((sampleDf4.get ⟨0 + 2, h⟩).close)) ∧
      (sampleDf4.length ≤ 0 + 2 → out.chikou_span 0 = none) :=
  c3_chikou_shift sampleDf4 9 26 2 52 26 0 (by decide)

/-- C7: a non-empty series strictly shorter than `leading_span_b_len` is
not an error — the computation succeeds and the whole `senkou_span_b`
column is missing, since no window of `leading_span_b_len` real bars
fits inside the frame. -/
theorem c7_short_series_span_b_undefined (df : List Bar)
    (conversion_len base_len lagging_len leading_span_b_len : Nat)
    (cloud_shift : Int) (hne : df ≠ [])
    (hshort : df.length < leading_span_b_len) :
    ∃ out,
      apply_ichimoku_cloud df conversion_len base_len lagging_len
        leading_span_b_len cloud_shift = .ok out ∧
      ∀ i, out.senkou_span_b i = none := by
  refine ⟨_, apply_eq_ok df _ _ _ _ _ hne, fun i => ?_⟩
  rw [mkOut_spanB]
  have hroll : ∀ j, optHalf (optAdd
      (rollingMax leading_span_b_len (colHigh df) j)
      (rollingMin leading_span_b_len (colLow df) j)) = none := by
    intro j
    have hmax : rollingMax leading_span_b_len (colHigh df) j = none := by
      by_cases hg : leading_span_b_len ≤ j + 1
      · exact rollingMax_eq_none_of_missing _ (by omega) (le_refl j)
          (colHigh_eq_none (by omega))
      · exact rollingMax_eq_none_of_short _ (by omega)
    rw [hmax]
    rfl
  by_cases h : i < df.length + cloud_shift.toNat
  · rw [if_pos h, shiftCol_eq]
    by_cases hc : 0 ≤ (i : Int) - cloud_shift ∧
        (i : Int) - cloud_shift < ((df.length + cloud_shift.toNat : Nat) : Int)
    · rw [if_pos hc]
      exact hroll _
    · rw [if_neg hc]
  · rw [if_neg h]

/-- Witness for `c7_short_series_span_b_undefined` at a concrete input. -/
theorem c7_witness :
    ∃ out,
      apply_ichimoku_cloud sampleDf4 9 26 26 52 26 = .ok out ∧
      ∀ i, out.senkou_span_b i = none :=
  c7_short_series_span_b_undefined sampleDf4 9 26 26 52 26
    (by decide) (by decide)

/-- C8: the `senkou_span_b` column computed by the source over the extended
frame (rolling windows that may touch the synthetic, all-missing tail)
agrees at every output position with the specification's description —
rolling extrema over the original bars only, then the forward shift — and
no plotted position ever shows a value whose window reached a synthetic
bar (positions at or past `original length + cloud_shift` are missing). -/
theorem c8_span_b_refinement (df : List Bar)
    (conversion_len base_len lagging_len leading_span_b_len : Nat)
    (cloud_shift : Int) (hne : df ≠ []) (hcs : 0 ≤ cloud_shift)
    (hlsb : 0 < leading_span_b_len) :
    ∃ out,
      apply_ichimoku_cloud df conversion_len base_len lagging_len
        leading_span_b_len cloud_shift = .ok out ∧
      (∀ i, out.senkou_span_b i
        = senkou_span_b_spec df leading_span_b_len cloud_shift i) ∧
      (∀ i : Nat, (df.length : Int) + cloud_shift ≤ (i : Int) →
        out.senkou_span_b i = none) := by
  refine ⟨_, apply_eq_ok df _ _ _ _ _ hne, fun i => ?_, fun i hi => ?_⟩
  · rw [mkOut_spanB]
    unfold senkou_span_b_spec
    by_cases h : i < df.length + cloud_shift.toNat
    · rw [if_pos h, if_pos h, shiftCol_eq, shiftCol_eq]
      by_cases hc : 0 ≤ (i : Int) - cloud_shift ∧
          (i : Int) - cloud_shift < ((df.length + cloud_shift.toNat : Nat) : Int)
      · rw [if_pos hc, if_pos hc]
        set j := ((i : Int) - cloud_shift).toNat with hj
        show optHalf (optAdd (rollingMax leading_span_b_len (colHigh df) j)
            (rollingMin leading_span_b_len (colLow df) j))
          = (if j < df.length then
              optHalf (optAdd (rollingMax leading_span_b_len (colHigh df) j)
                (rollingMin leading_span_b_len (colLow df) j))
            else none)
        by_cases hjl : j < df.length
        · rw [if_pos hjl]
        · rw [if_neg hjl]
          have hmax : rollingMax leading_span_b_len (colHigh df) j = none := by
            by_cases hg : leading_span_b_len ≤ j + 1
            · exact rollingMax_eq_none_of_missing _ (by omega) (le_refl j)
                (colHigh_eq_none (by omega))
            · exact rollingMax_eq_none_of_short _ (by omega)
          rw [hmax]
          rfl
      · rw [if_neg hc, if_neg hc]
    · rw [if_neg h, if_neg h]
  · rw [mkOut_spanB, if_neg (by omega)]

/-- Witness for `c8_span_b_refinement` at a concrete input. -/
theorem c8_witness :
    ∃ out,
      apply_ichimoku_cloud sampleDf4 9 26 26 52 26 = .ok out ∧
      (∀ i, out.senkou_span_b i
        = senkou_span_b_spec sampleDf4 52 26 i) ∧
      (∀ i : Nat, (sampleDf4.length : Int) + 26 ≤ (i : Int) →
        out.senkou_span_b i = none) :=
  c8_span_b_refinement sampleDf4 9 26 26 52 26
    (by decide) (by decide) (by decide)

end Ichimoku
